import Mathlib

/-!
Verification of the mdui tooltip component (src/app/mdui/components/tooltip/index.js)
and the mdui switch component (src/unnamed/part_002) against their specification.

The geometry of `updatePositioner` is embedded over the rationals (the source works
with device-independent pixel coordinates and divides by 2 when centering), the
trigger state machine as explicit state passing, and the open/close transition of
`onOpenChange` as a state plus an ordered list of emitted actions.
-/

namespace Mdui

/-- The `variant` property of the tooltip: `plain` or `rich` (source line 61). -/
inductive Variant where
  | plain
  | rich
deriving DecidableEq, Repr

/-- The closed enumeration of `placement` values (source lines 63-83):
`auto` plus the 16 concrete values. -/
inductive Placement where
  | auto
  | topLeft
  | topStart
  | top
  | topEnd
  | topRight
  | bottomLeft
  | bottomStart
  | bottom
  | bottomEnd
  | bottomRight
  | leftStart
  | left
  | leftEnd
  | rightStart
  | right
  | rightEnd
deriving DecidableEq, Repr

/-- The result of `placement.split('-')` (source line 396): the `position` token and
the optional `alignment` token. -/
def placementParts : Placement → String × Option String
  | Placement.auto => ("auto", none)
  | Placement.topLeft => ("top", some "left")
  | Placement.topStart => ("top", some "start")
  | Placement.top => ("top", none)
  | Placement.topEnd => ("top", some "end")
  | Placement.topRight => ("top", some "right")
  | Placement.bottomLeft => ("bottom", some "left")
  | Placement.bottomStart => ("bottom", some "start")
  | Placement.bottom => ("bottom", none)
  | Placement.bottomEnd => ("bottom", some "end")
  | Placement.bottomRight => ("bottom", some "right")
  | Placement.leftStart => ("left", some "start")
  | Placement.left => ("left", none)
  | Placement.leftEnd => ("left", some "end")
  | Placement.rightStart => ("right", some "start")
  | Placement.right => ("right", none)
  | Placement.rightEnd => ("right", some "end")

/-- The target's bounding client rect as read at source lines 326-330. -/
structure Rect where
  top : ℚ
  left : ℚ
  height : ℚ
  width : ℚ
deriving DecidableEq, Repr

/-- The popup's measured `offsetHeight`/`offsetWidth` (source lines 332-333). -/
structure PopupSize where
  height : ℚ
  width : ℚ
deriving DecidableEq, Repr

/-- The window dimensions read by `$(window).width()`/`.height()`
(source lines 344-348). -/
structure Viewport where
  width : ℚ
  height : ℚ
deriving DecidableEq, Repr

/-- Gap between the target and the popup (source line 323):
0 for the `rich` variant, 4 for `plain`. -/
def targetMargin (variant : Variant) : ℚ :=
  if variant = Variant.rich then 0 else 4

/-- Gap between the popup and the viewport edge (source line 324). -/
def popupMargin : ℚ := 4

/-- The four boolean space flags computed in the `auto` branch of `updatePositioner`
(source lines 345-348), comparing available space on each side against
`popup dimension + targetMargin + popupMargin`. -/
structure SpaceFlags where
  hasTopSpace : Bool
  hasBottomSpace : Bool
  hasLeftSpace : Bool
  hasRightSpace : Bool
deriving DecidableEq, Repr

/-- Computes the space flags from the geometry (source lines 334-348). -/
def spaceFlags (variant : Variant) (targetRect : Rect) (popup : PopupSize)
    (viewport : Viewport) : SpaceFlags :=
  let popupXSpace := popup.width + targetMargin variant + popupMargin
  let popupYSpace := popup.height + targetMargin variant + popupMargin
  { hasTopSpace := targetRect.top > popupYSpace
    hasBottomSpace := viewport.height - targetRect.top - targetRect.height > popupYSpace
    hasLeftSpace := targetRect.left > popupXSpace
    hasRightSpace := viewport.width - targetRect.left - targetRect.width > popupXSpace }

/-- The placement chosen from the space flags by the if-chains of the `auto` branch
(source lines 349-393): the `rich` chain starting from `bottom-right`, the `plain`
chain starting from `top`. -/
def resolveAutoFlags (variant : Variant) (f : SpaceFlags) : Placement :=
  if variant = Variant.rich then
    if f.hasBottomSpace && f.hasRightSpace then Placement.bottomRight
    else if f.hasBottomSpace && f.hasLeftSpace then Placement.bottomLeft
    else if f.hasTopSpace && f.hasRightSpace then Placement.topRight
    else if f.hasTopSpace && f.hasLeftSpace then Placement.topLeft
    else if f.hasBottomSpace then Placement.bottom
    else if f.hasTopSpace then Placement.top
    else if f.hasRightSpace then Placement.right
    else if f.hasLeftSpace then Placement.left
    else Placement.bottomRight
  else
    if f.hasTopSpace then Placement.top
    else if f.hasBottomSpace then Placement.bottom
    else if f.hasLeftSpace then Placement.left
    else if f.hasRightSpace then Placement.right
    else Placement.top

/-- The whole `auto` branch of `updatePositioner` (source lines 343-394). -/
def resolveAuto (variant : Variant) (targetRect : Rect) (popup : PopupSize)
    (viewport : Viewport) : Placement :=
  resolveAutoFlags variant (spaceFlags variant targetRect popup viewport)

/-- The output of `updatePositioner`: the CSS `top`/`left` coordinates, the two
components of `transform-origin` (source lines 453-457), and the placement after
`auto` resolution. -/
structure PositionResult where
  transformOriginX : String
  transformOriginY : String
  top : ℚ
  left : ℚ
  resolvedPlacement : Placement
deriving DecidableEq, Repr

/-- The positioning computation of `updatePositioner` (source lines 321-458):
resolve `auto` if requested, split the placement into position and alignment
tokens, then run the vertical switch (lines 397-420) and the horizontal switch
(lines 421-452). -/
def updatePositioner (variant : Variant) (requestedPlacement : Placement)
    (targetRect : Rect) (popup : PopupSize) (viewport : Viewport) : PositionResult :=
  let margin := targetMargin variant
  let targetTop := targetRect.top
  let targetLeft := targetRect.left
  let targetHeight := targetRect.height
  let targetWidth := targetRect.width
  let popupHeight := popup.height
  let popupWidth := popup.width
  let placement :=
    if requestedPlacement = Placement.auto then
      resolveAuto variant targetRect popup viewport
    else requestedPlacement
  let parts := placementParts placement
  let position := parts.1
  let alignment := parts.2
  let vert : String × ℚ :=
    if position = "top" then
      ("bottom", targetTop - popupHeight - margin)
    else if position = "bottom" then
      ("top", targetTop + targetHeight + margin)
    else
      match alignment with
      | some "start" => ("center", targetTop)
      | some "end" => ("center", targetTop + targetHeight - popupHeight)
      | _ => ("center", targetTop + targetHeight / 2 - popupHeight / 2)
  let horiz : String × ℚ :=
    if position = "left" then
      ("right", targetLeft - popupWidth - margin)
    else if position = "right" then
      ("left", targetLeft + targetWidth + margin)
    else
      match alignment with
      | some "start" => ("center", targetLeft)
      | some "end" => ("center", targetLeft + targetWidth - popupWidth)
      | some "left" => ("right", targetLeft - popupWidth - margin)
      | some "right" => ("left", targetLeft + targetWidth + margin)
      | _ => ("center", targetLeft + targetWidth / 2 - popupWidth / 2)
  { transformOriginX := horiz.1
    transformOriginY := vert.1
    top := vert.2
    left := horiz.2
    resolvedPlacement := placement }

end Mdui

namespace Mdui

/-- The per-position coordinate formulas exactly as the specification states them for
concrete placements: the vertical axis switches on position `top` / `bottom` /
otherwise-with-alignment `start` / `end` / centered, and the horizontal axis follows
the literally symmetric rule, with only `start`, `end` and centered alignment cases.
This is the claimed contract, to be compared with `updatePositioner`. -/
def claimedPosition (variant : Variant) (placement : Placement)
    (targetRect : Rect) (popup : PopupSize) : PositionResult :=
  let margin := targetMargin variant
  let parts := placementParts placement
  let position := parts.1
  let alignment := parts.2
  let vert : String × ℚ :=
    if position = "top" then
      ("bottom", targetRect.top - popup.height - margin)
    else if position = "bottom" then
      ("top", targetRect.top + targetRect.height + margin)
    else
      match alignment with
      | some "start" => ("center", targetRect.top)
      | some "end" => ("center", targetRect.top + targetRect.height - popup.height)
      | _ => ("center", targetRect.top + targetRect.height / 2 - popup.height / 2)
  let horiz : String × ℚ :=
    if position = "left" then
      ("right", targetRect.left - popup.width - margin)
    else if position = "right" then
      ("left", targetRect.left + targetRect.width + margin)
    else
      match alignment with
      | some "start" => ("center", targetRect.left)
      | some "end" => ("center", targetRect.left + targetRect.width - popup.width)
      | _ => ("center", targetRect.left + targetRect.width / 2 - popup.width / 2)
  { transformOriginX := horiz.1
    transformOriginY := vert.1
    top := vert.2
    left := horiz.2
    resolvedPlacement := placement }

/-- The amended per-placement contract: the claimed formulas, extended on the
horizontal axis by the corner-placement overrides that the source implements at
lines 439-446 (alignment token `left` places the popup to the left of the target
with origin-X `right`, alignment token `right` symmetrically). Spelled out placement
by placement. -/
def amendedPosition (variant : Variant) (placement : Placement)
    (r : Rect) (p : PopupSize) : PositionResult :=
  let m := targetMargin variant
  match placement with
  | Placement.auto =>
      { transformOriginX := "center", transformOriginY := "center",
        top := r.top + r.height / 2 - p.height / 2,
        left := r.left + r.width / 2 - p.width / 2,
        resolvedPlacement := Placement.auto }
  | Placement.topLeft =>
      { transformOriginX := "right", transformOriginY := "bottom",
        top := r.top - p.height - m, left := r.left - p.width - m,
        resolvedPlacement := Placement.topLeft }
  | Placement.topStart =>
      { transformOriginX := "center", transformOriginY := "bottom",
        top := r.top - p.height - m, left := r.left,
        resolvedPlacement := Placement.topStart }
  | Placement.top =>
      { transformOriginX := "center", transformOriginY := "bottom",
        top := r.top - p.height - m, left := r.left + r.width / 2 - p.width / 2,
        resolvedPlacement := Placement.top }
  | Placement.topEnd =>
      { transformOriginX := "center", transformOriginY := "bottom",
        top := r.top - p.height - m, left := r.left + r.width - p.width,
        resolvedPlacement := Placement.topEnd }
  | Placement.topRight =>
      { transformOriginX := "left", transformOriginY := "bottom",
        top := r.top - p.height - m, left := r.left + r.width + m,
        resolvedPlacement := Placement.topRight }
  | Placement.bottomLeft =>
      { transformOriginX := "right", transformOriginY := "top",
        top := r.top + r.height + m, left := r.left - p.width - m,
        resolvedPlacement := Placement.bottomLeft }
  | Placement.bottomStart =>
      { transformOriginX := "center", transformOriginY := "top",
        top := r.top + r.height + m, left := r.left,
        resolvedPlacement := Placement.bottomStart }
  | Placement.bottom =>
      { transformOriginX := "center", transformOriginY := "top",
        top := r.top + r.height + m, left := r.left + r.width / 2 - p.width / 2,
        resolvedPlacement := Placement.bottom }
  | Placement.bottomEnd =>
      { transformOriginX := "center", transformOriginY := "top",
        top := r.top + r.height + m, left := r.left + r.width - p.width,
        resolvedPlacement := Placement.bottomEnd }
  | Placement.bottomRight =>
      { transformOriginX := "left", transformOriginY := "top",
        top := r.top + r.height + m, left := r.left + r.width + m,
        resolvedPlacement := Placement.bottomRight }
  | Placement.leftStart =>
      { transformOriginX := "right", transformOriginY := "center",
        top := r.top, left := r.left - p.width - m,
        resolvedPlacement := Placement.leftStart }
  | Placement.left =>
      { transformOriginX := "right", transformOriginY := "center",
        top := r.top + r.height / 2 - p.height / 2, left := r.left - p.width - m,
        resolvedPlacement := Placement.left }
  | Placement.leftEnd =>
      { transformOriginX := "right", transformOriginY := "center",
        top := r.top + r.height - p.height, left := r.left - p.width - m,
        resolvedPlacement := Placement.leftEnd }
  | Placement.rightStart =>
      { transformOriginX := "left", transformOriginY := "center",
        top := r.top, left := r.left + r.width + m,
        resolvedPlacement := Placement.rightStart }
  | Placement.right =>
      { transformOriginX := "left", transformOriginY := "center",
        top := r.top + r.height / 2 - p.height / 2, left := r.left + r.width + m,
        resolvedPlacement := Placement.right }
  | Placement.rightEnd =>
      { transformOriginX := "left", transformOriginY := "center",
        top := r.top + r.height - p.height, left := r.left + r.width + m,
        resolvedPlacement := Placement.rightEnd }

/-- A target rectangle used as a concrete probe input. -/
def probeRect : Rect := { top := 100, left := 100, height := 50, width := 50 }

/-- A popup size used as a concrete probe input. -/
def probePopup : PopupSize := { height := 30, width := 30 }

/-- A viewport used as a concrete probe input. -/
def probeViewport : Viewport := { width := 1000, height := 800 }

end Mdui

/-- C1 counterexample: at the concrete corner placement `top-left` with a plain
tooltip, target rect (top 100, left 100, 50 by 50) and popup 30 by 30, the code's
`updatePositioner` does not satisfy the claimed symmetric horizontal rule: the code
places the popup to the left of the target (origin-X `right`, left 66) while the
claimed rule, whose horizontal cases are only `start`, `end` and centered, yields
horizontal centering (origin-X `center`, left 110). -/
theorem updatePositioner_deviates_from_claimed_formulas :
    Mdui.updatePositioner Mdui.Variant.plain Mdui.Placement.topLeft
      Mdui.probeRect Mdui.probePopup Mdui.probeViewport ≠
    Mdui.claimedPosition Mdui.Variant.plain Mdui.Placement.topLeft
      Mdui.probeRect Mdui.probePopup := by
  intro h
  have h2 := congrArg Mdui.PositionResult.transformOriginX h
  exact absurd h2 (by decide)

/-- C1 (amended): for every target rectangle, popup size, viewport and concrete
(non-`auto`) placement, `updatePositioner` computes the coordinates by the claimed
per-position formulas, extended by the corner-placement horizontal overrides:
alignment token `left` gives origin-X `right` and `left = targetLeft - popupWidth -
targetMargin`, alignment token `right` gives origin-X `left` and `left = targetLeft +
targetWidth + targetMargin`, where `targetMargin` is 0 for `rich` and 4 for `plain`. -/
theorem updatePositioner_concrete_placement_formulas
    (variant : Mdui.Variant) (placement : Mdui.Placement)
    (r : Mdui.Rect) (p : Mdui.PopupSize) (vp : Mdui.Viewport)
    (h : placement ≠ Mdui.Placement.auto) :
    Mdui.updatePositioner variant placement r p vp =
      Mdui.amendedPosition variant placement r p := by
  cases placement <;> first
    | exact absurd rfl h
    | rfl

/-- Witness for C1's amended theorem at the plain variant and placement
`bottom-right`. -/
theorem updatePositioner_concrete_placement_formulas_witness :
    Mdui.Placement.bottomRight ≠ Mdui.Placement.auto ∧
    Mdui.updatePositioner Mdui.Variant.plain Mdui.Placement.bottomRight
      Mdui.probeRect Mdui.probePopup Mdui.probeViewport =
      Mdui.amendedPosition Mdui.Variant.plain Mdui.Placement.bottomRight
        Mdui.probeRect Mdui.probePopup :=
  ⟨by decide,
   updatePositioner_concrete_placement_formulas Mdui.Variant.plain
     Mdui.Placement.bottomRight Mdui.probeRect Mdui.probePopup Mdui.probeViewport
     (by decide)⟩

namespace Mdui

/-- The claimed priority order for the `rich` variant: each entry pairs a placement
with the space-flag combination that selects it; the first satisfied entry wins. -/
def richPriorityOrder : List (Placement × (SpaceFlags → Bool)) :=
  [(Placement.bottomRight, fun f => f.hasBottomSpace && f.hasRightSpace),
   (Placement.bottomLeft, fun f => f.hasBottomSpace && f.hasLeftSpace),
   (Placement.topRight, fun f => f.hasTopSpace && f.hasRightSpace),
   (Placement.topLeft, fun f => f.hasTopSpace && f.hasLeftSpace),
   (Placement.bottom, fun f => f.hasBottomSpace),
   (Placement.top, fun f => f.hasTopSpace),
   (Placement.right, fun f => f.hasRightSpace),
   (Placement.left, fun f => f.hasLeftSpace)]

/-- The claimed priority order for the `plain` variant. -/
def plainPriorityOrder : List (Placement × (SpaceFlags → Bool)) :=
  [(Placement.top, fun f => f.hasTopSpace),
   (Placement.bottom, fun f => f.hasBottomSpace),
   (Placement.left, fun f => f.hasLeftSpace),
   (Placement.right, fun f => f.hasRightSpace)]

/-- First-match selection over a priority list, with a fallback when no entry is
satisfied. -/
def firstSatisfied (f : SpaceFlags) :
    List (Placement × (SpaceFlags → Bool)) → Placement → Placement
  | [], fallback => fallback
  | entry :: rest, fallback =>
      if entry.2 f then entry.1 else firstSatisfied f rest fallback

/-- The claimed declarative description of `auto` resolution: first-match over the
variant's priority order, with fallback `bottom-right` for `rich` and `top` for
`plain`. -/
def priorityResolve (variant : Variant) (f : SpaceFlags) : Placement :=
  if variant = Variant.rich then
    firstSatisfied f richPriorityOrder Placement.bottomRight
  else
    firstSatisfied f plainPriorityOrder Placement.top

end Mdui

/-- Helper for C2: at the level of the four boolean flags, the source's if-chains
agree with first-match priority selection and never return `auto`. -/
theorem resolveAutoFlags_eq_priorityResolve
    (v : Mdui.Variant) (f : Mdui.SpaceFlags) :
    Mdui.resolveAutoFlags v f = Mdui.priorityResolve v f ∧
      Mdui.resolveAutoFlags v f ≠ Mdui.Placement.auto := by
  obtain ⟨t, b, l, r⟩ := f
  cases v <;> cases t <;> cases b <;> cases l <;> cases r <;> exact ⟨rfl, by decide⟩

/-- C2 (confirmed): for every variant and geometry, the `auto` branch of
`updatePositioner` computes the four space flags by the stated comparisons
(`spaceFlags`) and resolves the placement by first-match over the claimed priority
order — bottom-right, bottom-left, top-right, top-left, bottom, top, right, left
with fallback `bottom-right` for `rich`; top, bottom, left, right with fallback
`top` for `plain` — and the result is never `auto`. -/
theorem resolveAuto_first_match_priority
    (v : Mdui.Variant) (targetRect : Mdui.Rect) (popup : Mdui.PopupSize)
    (viewport : Mdui.Viewport) :
    Mdui.resolveAuto v targetRect popup viewport =
      Mdui.priorityResolve v (Mdui.spaceFlags v targetRect popup viewport) ∧
    Mdui.resolveAuto v targetRect popup viewport ≠ Mdui.Placement.auto :=
  resolveAutoFlags_eq_priorityResolve v (Mdui.spaceFlags v targetRect popup viewport)

/-- C3 (confirmed): for a rich tooltip on a 1000 by 800 viewport whose space flags
say there is room above and to the left but none below or to the right, `auto`
resolution yields placement `top-left`. -/
theorem auto_rich_bottom_right_constrained
    (targetRect : Mdui.Rect) (popup : Mdui.PopupSize)
    (h : Mdui.spaceFlags Mdui.Variant.rich targetRect popup
          { width := 1000, height := 800 } =
        { hasTopSpace := true, hasBottomSpace := false,
          hasLeftSpace := true, hasRightSpace := false }) :
    Mdui.resolveAuto Mdui.Variant.rich targetRect popup
      { width := 1000, height := 800 } = Mdui.Placement.topLeft := by
  unfold Mdui.resolveAuto
  rw [h]
  rfl

/-- Witness for C3 at a concrete target near the bottom-right of the viewport:
target rect top 700, left 900, 50 by 50, popup 100 by 100. -/
theorem auto_rich_bottom_right_constrained_witness :
    Mdui.spaceFlags Mdui.Variant.rich
        { top := 700, left := 900, height := 50, width := 50 }
        { height := 100, width := 100 } { width := 1000, height := 800 } =
      { hasTopSpace := true, hasBottomSpace := false,
        hasLeftSpace := true, hasRightSpace := false } ∧
    Mdui.resolveAuto Mdui.Variant.rich
        { top := 700, left := 900, height := 50, width := 50 }
        { height := 100, width := 100 } { width := 1000, height := 800 } =
      Mdui.Placement.topLeft :=
  ⟨by norm_num [Mdui.spaceFlags, Mdui.targetMargin, Mdui.popupMargin],
   auto_rich_bottom_right_constrained
     { top := 700, left := 900, height := 50, width := 50 }
     { height := 100, width := 100 }
     (by norm_num [Mdui.spaceFlags, Mdui.targetMargin, Mdui.popupMargin])⟩

namespace Mdui

/-- Splitting a character list at every space, keeping empty segments, as
JavaScript's `split(' ')` does. -/
def splitSpaceAux : List Char → List Char → List String
  | [], acc => [String.mk acc.reverse]
  | c :: rest, acc =>
      if c = ' ' then String.mk acc.reverse :: splitSpaceAux rest []
      else splitSpaceAux rest (c :: acc)

/-- `this.trigger.split(' ').includes(trigger)` (source lines 246-249). -/
def hasTriggerIn (trigger : String) (t : String) : Bool :=
  (splitSpaceAux trigger.toList []).contains t

/-- The kind of callback sitting in the single `hoverTimeout` slot: the open-delay
callback of `onMouseEnter` (source line 286), the request-close delay callback of
`onMouseLeave` (source line 301), or the deferred-close callback registered by
`requestClose` once the pointer has left the popup (source line 237). -/
inductive TimerTask where
  | openTask
  | requestCloseTask
  | deferredCloseTask
deriving DecidableEq, Repr

/-- The tooltip state relevant to the trigger state machine: the `open` and
`disabled` properties, the configured `trigger` string and delays, the hover
controller's `isHover` flag over the popup surface, whether a one-shot
popup-leave callback is registered (`hoverController.onMouseLeave`, source
line 233), and the single `hoverTimeout` slot holding at most one pending
callback together with its delay in milliseconds. -/
structure TooltipState where
  isOpen : Bool
  disabled : Bool
  trigger : String
  openDelay : Nat
  closeDelay : Nat
  isHover : Bool
  pendingPopupLeave : Bool
  hoverTimeout : Option (TimerTask × Nat)
deriving DecidableEq, Repr

/-- `hasTrigger` of the instance (source lines 246-249). -/
def TooltipState.hasTrigger (s : TooltipState) (t : String) : Bool :=
  hasTriggerIn s.trigger t

/-- `requestClose` (source lines 228-245): close at once when the pointer is not
over the popup; otherwise register the one-shot popup-leave callback. -/
def requestClose (s : TooltipState) : TooltipState :=
  if !s.isHover then { s with isOpen := false }
  else { s with pendingPopupLeave := true }

/-- The JavaScript expression `this.closeDelay || 50` (source lines 239 and 303):
a falsy delay falls back to 50 milliseconds. -/
def closeDelayOr50 (closeDelay : Nat) : Nat :=
  if closeDelay = 0 then 50 else closeDelay

/-- The one-shot popup-leave callback registered by `requestClose` firing
(source lines 233-244): with the `hover` trigger, schedule `open = false` after
`closeDelay || 50` milliseconds; otherwise close at once. -/
def onPopupLeave (s : TooltipState) : TooltipState :=
  if s.pendingPopupLeave then
    let s1 := { s with pendingPopupLeave := false }
    if s1.hasTrigger "hover" then
      { s1 with hoverTimeout := some (TimerTask.deferredCloseTask, closeDelayOr50 s1.closeDelay) }
    else { s1 with isOpen := false }
  else s

/-- `onMouseEnter` (source lines 280-293): guarded on not disabled, not open and the
`hover` trigger; with a truthy `openDelay` it clears the `hoverTimeout` slot and
schedules the open callback after `openDelay` milliseconds, otherwise it opens
synchronously. -/
def onMouseEnter (s : TooltipState) : TooltipState :=
  if s.disabled || s.isOpen || !(s.hasTrigger "hover") then s
  else if s.openDelay ≠ 0 then
    { s with hoverTimeout := some (TimerTask.openTask, s.openDelay) }
  else { s with isOpen := true }

/-- `onMouseLeave` (source lines 294-304): always clears the `hoverTimeout` slot
first; then, guarded on not disabled, open and the `hover` trigger, schedules the
request-close callback after `closeDelay || 50` milliseconds. -/
def onMouseLeave (s : TooltipState) : TooltipState :=
  let s1 := { s with hoverTimeout := none }
  if s1.disabled || !s1.isOpen || !(s1.hasTrigger "hover") then s1
  else
    { s1 with hoverTimeout := some (TimerTask.requestCloseTask, closeDelayOr50 s1.closeDelay) }

/-- `onDocumentClick` (source lines 308-317): ignore when disabled or closed;
when the composed path does not include the tooltip, call `requestClose`. -/
def onDocumentClick (s : TooltipState) (pathIncludesSelf : Bool) : TooltipState :=
  if s.disabled || !s.isOpen then s
  else if !pathIncludesSelf then requestClose s
  else s

/-- The pending callback in the `hoverTimeout` slot firing. -/
def fireTimer (s : TooltipState) : TooltipState :=
  match s.hoverTimeout with
  | none => s
  | some (TimerTask.openTask, _) =>
      { s with hoverTimeout := none, isOpen := true }
  | some (TimerTask.requestCloseTask, _) =>
      requestClose { s with hoverTimeout := none }
  | some (TimerTask.deferredCloseTask, _) =>
      { s with hoverTimeout := none, isOpen := false }

/-- Whether a close-delay callback (scheduled by `onMouseLeave`) is pending. -/
def pendingCloseTimer (s : TooltipState) : Bool :=
  match s.hoverTimeout with
  | some (TimerTask.requestCloseTask, _) => true
  | _ => false

/-- A hover-triggered tooltip state with a pending close-delay callback while
closed: reachable by opening, moving the pointer off the target (which schedules
the close callback), then closing at once through an outside pointer-down, which
leaves the callback pending. -/
def closeTimerPendingState : TooltipState :=
  { isOpen := false, disabled := false, trigger := "hover", openDelay := 50,
    closeDelay := 150, isHover := false, pendingPopupLeave := false,
    hoverTimeout := some (TimerTask.requestCloseTask, 150) }

end Mdui

/-- Sanity check of the trigger-string parsing: the default `"hover focus"`
configuration contains the `hover` token and not the `click` token. -/
theorem hasTriggerIn_default_config :
    Mdui.hasTriggerIn "hover focus" "hover" = true ∧
    Mdui.hasTriggerIn "hover focus" "click" = false := by decide

/-- C4 counterexample: in the concrete reachable state `closeTimerPendingState`
(closed, hover trigger, a close-delay callback pending in the `hoverTimeout` slot),
a mouseenter does not leave the pending close timer untouched in a separate slot:
it cancels it, installing the open-delay callback in the same, single slot. -/
theorem mouseenter_cancels_pending_close_timer :
    Mdui.pendingCloseTimer Mdui.closeTimerPendingState = true ∧
    Mdui.pendingCloseTimer (Mdui.onMouseEnter Mdui.closeTimerPendingState) = false ∧
    (Mdui.onMouseEnter Mdui.closeTimerPendingState).hoverTimeout =
      some (Mdui.TimerTask.openTask, 50) := by
  decide

/-- C4 (amended): the tooltip keeps a single shared timer slot (`hoverTimeout`)
used for both the open delay and the close delay, so at most one of the two timers
is pending at any time; starting either timer clears the other: when `onMouseEnter`
schedules the open delay it first clears the slot, cancelling any pending close
timer (rather than leaving it in a separate slot), and `onMouseLeave` always clears
the slot first, so after a mouseleave no open-delay callback is ever pending. -/
theorem tooltip_single_shared_timer_slot (s : Mdui.TooltipState)
    (h1 : s.disabled = false) (h2 : s.isOpen = false)
    (h3 : s.hasTrigger "hover" = true) (h4 : s.openDelay ≠ 0) :
    (Mdui.onMouseEnter s).hoverTimeout = some (Mdui.TimerTask.openTask, s.openDelay) ∧
    (∀ t : Mdui.TooltipState, ∀ d : Nat,
      (Mdui.onMouseLeave t).hoverTimeout ≠ some (Mdui.TimerTask.openTask, d)) := by
  constructor
  · simp only [Mdui.TooltipState.hasTrigger] at h3
    simp [Mdui.onMouseEnter, Mdui.TooltipState.hasTrigger, h1, h2, h3, h4]
  · intro t d
    simp only [Mdui.onMouseLeave]
    split <;> simp

/-- Witness for C4's amended theorem at the concrete state with a pending close
timer: the mouseenter installs the open-delay callback in the shared slot. -/
theorem tooltip_single_shared_timer_slot_witness :
    (Mdui.onMouseEnter Mdui.closeTimerPendingState).hoverTimeout =
      some (Mdui.TimerTask.openTask, 50) :=
  (tooltip_single_shared_timer_slot Mdui.closeTimerPendingState rfl rfl
    (by decide) (by decide)).1

/-- C5 (confirmed): with the `hover` trigger, not disabled, closed and a positive
`openDelay`, a mouseenter only schedules the open-delay callback (the tooltip is
not yet open), and a mouseleave before the callback fires cancels it: afterwards the
tooltip is still closed and no callback is pending, so it never opens. -/
theorem hover_leave_before_open_delay_never_opens (s : Mdui.TooltipState)
    (h1 : s.disabled = false) (h2 : s.isOpen = false)
    (h3 : s.hasTrigger "hover" = true) (h4 : s.openDelay ≠ 0) :
    (Mdui.onMouseEnter s).isOpen = false ∧
    (Mdui.onMouseLeave (Mdui.onMouseEnter s)).isOpen = false ∧
    (Mdui.onMouseLeave (Mdui.onMouseEnter s)).hoverTimeout = none := by
  simp only [Mdui.TooltipState.hasTrigger] at h3
  have e : Mdui.onMouseEnter s =
      { s with hoverTimeout := some (Mdui.TimerTask.openTask, s.openDelay) } := by
    simp [Mdui.onMouseEnter, Mdui.TooltipState.hasTrigger, h1, h2, h3, h4]
  refine ⟨?_, ?_, ?_⟩ <;>
    simp [e, Mdui.onMouseLeave, Mdui.TooltipState.hasTrigger, h1, h2, h3]

/-- A closed, enabled, hover-triggered tooltip state with nothing pending. -/
def hoverReadyState : Mdui.TooltipState :=
  { isOpen := false, disabled := false, trigger := "hover", openDelay := 150,
    closeDelay := 150, isHover := false, pendingPopupLeave := false,
    hoverTimeout := none }

/-- Witness for C5 at the concrete closed hover-triggered state. -/
theorem hover_leave_before_open_delay_never_opens_witness :
    (Mdui.onMouseEnter hoverReadyState).isOpen = false ∧
    (Mdui.onMouseLeave (Mdui.onMouseEnter hoverReadyState)).isOpen = false ∧
    (Mdui.onMouseLeave (Mdui.onMouseEnter hoverReadyState)).hoverTimeout = none :=
  hover_leave_before_open_delay_never_opens hoverReadyState rfl rfl
    (by decide) (by decide)

/-- An open, enabled tooltip state whose pointer currently sits over the popup
surface (`isHover = true`). -/
def hoverOccupiedOpenState : Mdui.TooltipState :=
  { isOpen := true, disabled := false, trigger := "hover focus", openDelay := 150,
    closeDelay := 150, isHover := true, pendingPopupLeave := false,
    hoverTimeout := none }

/-- C6 counterexample: in the concrete open state whose pointer sits over the
popup surface, an outside pointer-down does not close the tooltip immediately:
`onDocumentClick` calls `requestClose`, which defers — the tooltip stays open and
the one-shot popup-leave callback is registered, so the hover-occupancy deferral
is not bypassed. -/
theorem outside_pointerdown_defers_under_hover :
    (Mdui.onDocumentClick hoverOccupiedOpenState false).isOpen = true ∧
    (Mdui.onDocumentClick hoverOccupiedOpenState false).pendingPopupLeave = true := by
  decide

/-- C6 (amended): an outside pointer-down while open and not disabled invokes
`requestClose` at once (no delay timer), which closes immediately exactly when the
pointer is not over the popup surface and otherwise defers to the popup-leave
callback; a pointer-down whose composed path includes the tooltip never closes it
through this path. -/
theorem outside_pointerdown_requests_close (s : Mdui.TooltipState)
    (h1 : s.disabled = false) (h2 : s.isOpen = true) :
    Mdui.onDocumentClick s false = Mdui.requestClose s ∧
    (s.isHover = false → (Mdui.onDocumentClick s false).isOpen = false) ∧
    (∀ t : Mdui.TooltipState, Mdui.onDocumentClick t true = t) := by
  refine ⟨?_, ?_, ?_⟩
  · simp [Mdui.onDocumentClick, h1, h2]
  · intro hh
    simp [Mdui.onDocumentClick, Mdui.requestClose, h1, h2, hh]
  · intro t
    unfold Mdui.onDocumentClick
    split <;> simp

/-- An open, enabled tooltip state whose pointer is away from the popup surface. -/
def hoverFreeOpenState : Mdui.TooltipState :=
  { isOpen := true, disabled := false, trigger := "hover focus", openDelay := 150,
    closeDelay := 150, isHover := false, pendingPopupLeave := false,
    hoverTimeout := none }

/-- Witness for C6's amended theorem: with the pointer away from the popup, the
outside pointer-down closes the tooltip at once. -/
theorem outside_pointerdown_requests_close_witness :
    (Mdui.onDocumentClick hoverFreeOpenState false).isOpen = false :=
  (outside_pointerdown_requests_close hoverFreeOpenState rfl rfl).2.1 rfl

/-- C9 (confirmed): a mouseleave while open, not disabled and with the `hover`
trigger schedules the request-close callback after `closeDelay || 50` milliseconds,
where a zero (falsy) configured delay falls back to 50 and not 0; the same
`closeDelay || 50` floor applies to the deferred close scheduled when the pointer
leaves the popup surface after a deferred `requestClose`. -/
theorem mouseleave_schedules_close_with_floor (s : Mdui.TooltipState)
    (h1 : s.disabled = false) (h2 : s.isOpen = true)
    (h3 : s.hasTrigger "hover" = true) :
    (Mdui.onMouseLeave s).hoverTimeout =
      some (Mdui.TimerTask.requestCloseTask, Mdui.closeDelayOr50 s.closeDelay) ∧
    Mdui.closeDelayOr50 0 = 50 ∧
    (∀ t : Mdui.TooltipState, t.pendingPopupLeave = true →
      t.hasTrigger "hover" = true →
      (Mdui.onPopupLeave t).hoverTimeout =
        some (Mdui.TimerTask.deferredCloseTask, Mdui.closeDelayOr50 t.closeDelay)) := by
  simp only [Mdui.TooltipState.hasTrigger] at h3
  refine ⟨?_, rfl, ?_⟩
  · simp [Mdui.onMouseLeave, Mdui.TooltipState.hasTrigger, h1, h2, h3]
  · intro t ht hh
    simp only [Mdui.TooltipState.hasTrigger] at hh
    simp [Mdui.onPopupLeave, Mdui.TooltipState.hasTrigger, ht, hh]

/-- An open hover-triggered state configured with `closeDelay = 0`. -/
def zeroCloseDelayState : Mdui.TooltipState :=
  { isOpen := true, disabled := false, trigger := "hover focus", openDelay := 150,
    closeDelay := 0, isHover := false, pendingPopupLeave := false,
    hoverTimeout := none }

/-- Witness for C9 at `closeDelay = 0`: the scheduled delay is the 50 millisecond
floor. -/
theorem mouseleave_schedules_close_with_floor_witness :
    (Mdui.onMouseLeave zeroCloseDelayState).hoverTimeout =
      some (Mdui.TimerTask.requestCloseTask, 50) :=
  (mouseleave_schedules_close_with_floor zeroCloseDelayState rfl rfl
    (by decide)).1

namespace Mdui

/-- Another tooltip instance in the document, as seen by the variant-scoped
mutual-exclusion query of `onOpenChange` (source lines 146-148): its variant, its
`open` property, whether its popup is hidden, and whether a consumer of its
cancelable `close` event calls `preventDefault()`. -/
structure OtherTooltip where
  variant : Variant
  isOpen : Bool
  hiddenPopup : Bool
  preventClose : Bool
deriving DecidableEq, Repr

/-- The close branch of the other instance's `onOpenChange` watcher (source lines
171-180) running after its `open` property was forced to `false`: the cancelable
`close` event is emitted, and when it is default-prevented the remaining side
effects (exit animation, hiding the popup, `closed` event) are skipped — but the
`open` boolean itself is already `false` and is not restored. -/
def closeWatcher (o : OtherTooltip) : OtherTooltip :=
  if o.preventClose then o else { o with hiddenPopup := true }

/-- The effect of `.prop('open', false)` on one queried instance (source line 148):
the `open` property is set to `false`; the watcher runs only when this is a change. -/
def setOpenFalse (o : OtherTooltip) : OtherTooltip :=
  if o.isOpen then closeWatcher { o with isOpen := false } else o

/-- The variant-scoped mutual exclusion of `onOpenChange` (source lines 146-148):
every same-variant tooltip in the document, other than the opening one, has its
`open` property forced to `false`. -/
def closeOtherTooltips (v : Variant) (doc : List OtherTooltip) : List OtherTooltip :=
  doc.map fun o => if o.variant = v then setOpenFalse o else o

/-- The observable steps of the opening instance's `onOpenChange` open branch
(source lines 143-168), in program order. -/
inductive OpenAction where
  | forceCloseOther (i : Nat)
  | emitOpen
  | animateIn
  | emitOpened
deriving DecidableEq, Repr

/-- Whether an open-branch step is the forced close of another instance. -/
def isForceClose : OpenAction → Bool
  | OpenAction.forceCloseOther _ => true
  | _ => false

/-- The open branch of `onOpenChange` after the first render (source lines
143-168): force-close every other same-variant tooltip, then emit the cancelable
`open` event, and unless it was default-prevented play the entrance animation
and emit `opened`. Returns the updated document and the ordered step list. -/
def openTransition (v : Variant) (doc : List OtherTooltip) (preventOpenEvt : Bool) :
    List OtherTooltip × List OpenAction :=
  (closeOtherTooltips v doc,
   (doc.enum.filterMap fun p =>
      if p.2.variant = v then some (OpenAction.forceCloseOther p.1) else none) ++
     OpenAction.emitOpen ::
       (if preventOpenEvt then [] else [OpenAction.animateIn, OpenAction.emitOpened]))

end Mdui

/-- Helper for C7: forcing `open` to `false` leaves the instance closed whatever
its `close`-event consumer does. -/
theorem setOpenFalse_not_open (o : Mdui.OtherTooltip) :
    (Mdui.setOpenFalse o).isOpen = false ∨ Mdui.setOpenFalse o = o ∧ o.isOpen = false := by
  unfold Mdui.setOpenFalse Mdui.closeWatcher
  by_cases h : o.isOpen = true
  · left
    simp [h]
    split <;> rfl
  · right
    simp at h
    simp [h]

/-- C7 (confirmed): when a tooltip opens, every other same-variant tooltip in the
document ends up closed, whatever the `preventClose` choice of its `close`-event
consumer (the forced close is not vetoable), and in the step order every forced
close precedes the opening instance's own `open` event (and hence its animation). -/
theorem open_closes_other_same_variant_first
    (v : Mdui.Variant) (doc : List Mdui.OtherTooltip) (preventOpenEvt : Bool) :
    (∀ o ∈ (Mdui.openTransition v doc preventOpenEvt).1,
        o.variant = v → o.isOpen = false) ∧
    (∃ pre rest, (Mdui.openTransition v doc preventOpenEvt).2 =
        pre ++ Mdui.OpenAction.emitOpen :: rest ∧
      (∀ a ∈ pre, Mdui.isForceClose a = true) ∧
      (∀ a ∈ rest, Mdui.isForceClose a = false)) := by
  constructor
  · intro o ho hv
    simp only [Mdui.openTransition, Mdui.closeOtherTooltips, List.mem_map] at ho
    obtain ⟨o1, _, rfl⟩ := ho
    by_cases h : o1.variant = v
    · rw [if_pos h]
      rw [if_pos h] at hv
      rcases setOpenFalse_not_open o1 with h2 | ⟨h2, h3⟩
      · exact h2
      · rw [h2]
        exact h3
    · rw [if_neg h] at hv
      exact absurd hv h
  · refine ⟨_, _, rfl, ?_, ?_⟩
    · intro a ha
      simp only [List.mem_filterMap] at ha
      obtain ⟨p, _, he⟩ := ha
      split at he
      · cases he
        rfl
      · cases he
    · intro a ha
      cases preventOpenEvt
      · simp at ha
        rcases ha with rfl | rfl <;> rfl
      · simp at ha

namespace Mdui

/-- The state of one tooltip as seen by its own `onOpenChange` watcher: the `open`
property (already flipped by the time the watcher runs) and the popup's hidden
flag. -/
structure TransitionView where
  isOpen : Bool
  hiddenPopup : Bool
deriving DecidableEq, Repr

/-- The observable side effects of `onOpenChange` (source lines 137-181). -/
inductive TransitionAction where
  | emitOpen
  | unhidePopup
  | animateIn
  | emitOpened
  | emitClose
  | animateOut
  | hidePopup
  | emitClosed
deriving DecidableEq, Repr

/-- The single-instance view of `onOpenChange` (source lines 137-181, with the
cross-instance query factored out): on open — after the first render emit the
cancelable `open` event and stop if prevented; otherwise unhide, animate in and
emit `opened` (events and animation are skipped on first render). On close —
after the first render emit the cancelable `close` event and stop if prevented;
otherwise animate out, hide and emit `closed`. The watcher never writes the
`open` property itself. -/
def onOpenChange (s : TransitionView) (hasUpdated : Bool) (prevented : Bool) :
    TransitionView × List TransitionAction :=
  if s.isOpen then
    if hasUpdated then
      if prevented then (s, [TransitionAction.emitOpen])
      else ({ s with hiddenPopup := false },
            [TransitionAction.emitOpen, TransitionAction.unhidePopup,
             TransitionAction.animateIn, TransitionAction.emitOpened])
    else ({ s with hiddenPopup := false },
          [TransitionAction.unhidePopup, TransitionAction.animateIn])
  else
    if hasUpdated then
      if prevented then (s, [TransitionAction.emitClose])
      else ({ s with hiddenPopup := true },
            [TransitionAction.emitClose, TransitionAction.animateOut,
             TransitionAction.hidePopup, TransitionAction.emitClosed])
    else (s, [])

end Mdui

/-- C8 (confirmed): when the cancelable `open` or `close` event is
default-prevented after the first render, the transition's only observable step is
that event itself — no animation, no unhide or hide, no `opened`/`closed` event,
and the popup's hidden flag is untouched — while the already-flipped `open`
boolean stays in force; moreover the watcher never writes the `open` boolean under
any circumstances, so the event is advisory and the state change is never rolled
back. -/
theorem prevented_open_close_event_is_advisory (s : Mdui.TransitionView) :
    (Mdui.onOpenChange s true true).2 =
      [if s.isOpen then Mdui.TransitionAction.emitOpen
       else Mdui.TransitionAction.emitClose] ∧
    (Mdui.onOpenChange s true true).1 = s ∧
    (∀ hasUpdated prevented : Bool,
      (Mdui.onOpenChange s hasUpdated prevented).1.isOpen = s.isOpen) := by
  obtain ⟨o, hd⟩ := s
  refine ⟨?_, ?_, ?_⟩
  · cases o <;> simp [Mdui.onOpenChange]
  · cases o <;> simp [Mdui.onOpenChange]
  · intro hu p
    cases o <;> cases hu <;> cases p <;> simp [Mdui.onOpenChange]

namespace Mdui

/-- The switch component's own fields that validation could touch
(src/unnamed/part_002): the `checked` property and the `invalid` state flag. -/
structure SwitchState where
  checked : Bool
  invalid : Bool
deriving DecidableEq, Repr

/-- Events the switch can emit during a validation call. -/
inductive SwitchEvent where
  | invalidEvt
deriving DecidableEq, Repr

/-- The outcome of a validation method call: its boolean return value, the
component state afterwards, and the events emitted. -/
structure ValidityCallResult where
  returnValue : Bool
  state : SwitchState
  events : List SwitchEvent
deriving DecidableEq, Repr

/-- `Switch.checkValidity` (src/unnamed/part_002 lines 128-138): read the native
input's `checkValidity()` (passed here as `nativeValid`), emit the `invalid`
event when it is `false`, and return it; no component field is assigned. -/
def Switch.checkValidity (s : SwitchState) (nativeValid : Bool) : ValidityCallResult :=
  { returnValue := nativeValid
    state := s
    events := if nativeValid then [] else [SwitchEvent.invalidEvt] }

/-- `Switch.reportValidity` (src/unnamed/part_002 lines 144-159): assign
`this.invalid` from the negated native `reportValidity()` result, emit the
`invalid` event when invalid, and return `!this.invalid`. (The blur/focus calls
made when the event is default-prevented do not touch these fields.) -/
def Switch.reportValidity (s : SwitchState) (nativeValid : Bool) : ValidityCallResult :=
  let s1 : SwitchState := { s with invalid := !nativeValid }
  if s1.invalid then
    { returnValue := !s1.invalid, state := s1, events := [SwitchEvent.invalidEvt] }
  else
    { returnValue := !s1.invalid, state := s1, events := [] }

end Mdui

/-- C10 (confirmed): `Switch.checkValidity` returns the native validity verbatim,
emits the `invalid` event exactly when it returns `false`, and leaves the
component's own state — including the `checked` and `invalid` fields — unchanged;
by contrast `Switch.reportValidity` assigns the `invalid` field (to the negation
of the native result). -/
theorem switch_checkValidity_pure_and_emits_iff_false
    (s : Mdui.SwitchState) (nativeValid : Bool) :
    (Mdui.Switch.checkValidity s nativeValid).returnValue = nativeValid ∧
    ((Mdui.Switch.checkValidity s nativeValid).events =
        [Mdui.SwitchEvent.invalidEvt] ↔
      (Mdui.Switch.checkValidity s nativeValid).returnValue = false) ∧
    (Mdui.Switch.checkValidity s nativeValid).state = s ∧
    (Mdui.Switch.reportValidity s nativeValid).state.invalid = !nativeValid := by
  cases nativeValid <;>
    simp [Mdui.Switch.checkValidity, Mdui.Switch.reportValidity]
